import Mathlib

/-!
# Verification of the multi-daemon RPC client layer (coin_daemon_mcp)

Shallow embedding of the TypeScript sources `src/errors.ts`, `src/config.ts`,
`src/rpcClient.ts` and `src/mcpServer.ts`.  Machine-level concerns that the
claims do not touch (wall-clock durations, base64 of credentials, JSON text
encoding, `parseFloat` on the wire strings) are abstracted: balances are
rationals holding the already-parsed numeric values, and the transport is an
oracle mapping the 1-based physical attempt index to that attempt's outcome.
Everything control-flow relevant (retry loop, error conversion, truthiness
checks, state transitions, logging points) is translated statement by
statement from the source.
-/

namespace CoinDaemon

/-- JavaScript string `includes`: substring containment. -/
def jsIncludes (s pat : String) : Bool :=
  decide (List.IsInfix pat.data s.data)

/-! ## Error taxonomy (`src/errors.ts`)

Each class extending `CryptoDaemonError` becomes one constructor; the base
class itself (returned for unmapped codes, message preserved verbatim) is the
`unclassified` constructor. -/

/-- The error classes of `src/errors.ts`. `unclassified` is the base
`CryptoDaemonError` built with `new CryptoDaemonError(message)`. -/
inductive CDError where
  | connection (endpoint details : String)
  | insufficientFunds (required available : Rat)
  | invalidAddress (address : String)
  | transaction (message : String) (txid : Option String)
  | daemonSync (blocks networkBlocks : Int)
  | walletLock
  | feeEstimation (details : String)
  | unclassified (message : String)
  deriving DecidableEq, Repr

/-- The taxonomy kind of an error, forgetting its payload. -/
inductive ErrorKind where
  | connection
  | insufficientFunds
  | invalidAddress
  | transaction
  | sync
  | walletLocked
  | feeEstimation
  | unclassified
  deriving DecidableEq, Repr

/-- Project a classified error to its taxonomy kind. -/
def CDError.kind : CDError → ErrorKind
  | .connection _ _ => .connection
  | .insufficientFunds _ _ => .insufficientFunds
  | .invalidAddress _ => .invalidAddress
  | .transaction _ _ => .transaction
  | .daemonSync _ _ => .sync
  | .walletLock => .walletLocked
  | .feeEstimation _ => .feeEstimation
  | .unclassified _ => .unclassified

/-- The optional `data` third argument of `mapRpcErrorToCustomError`
(`data?.required`, `data?.available`, `data?.address`, `data?.blocks`,
`data?.networkBlocks`); every field may be absent. -/
structure RpcErrorData where
  required : Option Rat := none
  available : Option Rat := none
  address : Option String := none
  blocks : Option Int := none
  networkBlocks : Option Int := none
  deriving DecidableEq, Repr

/-- `mapRpcErrorToCustomError(code, message, data?)` from `src/errors.ts`:
a `switch` on the raw JSON-RPC code; case `-1` additionally tests
`message.includes('sync')`; every unmatched code falls through to
`new CryptoDaemonError(message)`. -/
def mapRpcErrorToCustomError (code : Int) (message : String)
    (data : RpcErrorData := {}) : CDError :=
  if code = -6 then
    .insufficientFunds (data.required.getD 0) (data.available.getD 0)
  else if code = -5 then
    .invalidAddress (data.address.getD "unknown")
  else if code = -4 then
    .walletLock
  else if code = -3 then
    .feeEstimation message
  else if code = -1 then
    if jsIncludes message "sync" then
      .daemonSync (data.blocks.getD 0) (data.networkBlocks.getD 0)
    else
      .unclassified message
  else
    .unclassified message

/-! ## Configuration validation (`src/config.ts`) -/

/-- `DaemonConfig` from `src/types.ts`: the five required string fields.
A missing/undefined field and an empty string are both JS-falsy, so both are
modelled by `""`. -/
structure DaemonConfig where
  coinName : String
  nickname : String
  rpcEndpoint : String
  rpcUser : String
  rpcPassword : String
  deriving DecidableEq, Repr

/-- JavaScript `parseInt(s, 10)`: skip leading whitespace, optional sign,
then the longest prefix of decimal digits; `NaN` (here `none`) when that
prefix is empty. -/
def parseIntJs (s : String) : Option Int :=
  let cs := s.data.dropWhile (fun c => c = ' ' ∨ c = '\t' ∨ c = '\n' ∨ c = '\r')
  let (neg, cs) : Bool × List Char :=
    match cs with
    | '-' :: rest => (true, rest)
    | '+' :: rest => (false, rest)
    | rest => (false, rest)
  let digits := cs.takeWhile Char.isDigit
  if digits.isEmpty then none
  else
    let n : Nat := digits.foldl (fun acc c => acc * 10 + (c.toNat - '0'.toNat)) 0
    some (if neg then -(n : Int) else (n : Int))

/-- JavaScript `s.split(':')`: the string cut at every colon. -/
def jsSplitColon (s : String) : List String :=
  (s.data.splitOn ':').map List.asString

/-- `validateDaemonConfig` from `src/config.ts`: the five falsy-field checks,
then `rpcEndpoint.split(':')` must have exactly two parts, then
`parseInt(parts[1], 10)` must be a number in `[1, 65535]`.  The host part
(`parts[0]`) is never inspected. -/
def validateDaemonConfig (c : DaemonConfig) : Except String Unit :=
  if c.coinName = "" then
    .error "Daemon configuration must include \x22coinName\x22"
  else if c.nickname = "" then
    .error "Daemon configuration must include \x22nickname\x22"
  else if c.rpcEndpoint = "" then
    .error "Daemon configuration must include \x22rpcEndpoint\x22"
  else if c.rpcUser = "" then
    .error "Daemon configuration must include \x22rpcUser\x22"
  else if c.rpcPassword = "" then
    .error "Daemon configuration must include \x22rpcPassword\x22"
  else if (jsSplitColon c.rpcEndpoint).length ≠ 2 then
    .error "RPC endpoint must be in format \x22host:port\x22"
  else
    match parseIntJs ((jsSplitColon c.rpcEndpoint).getD 1 "") with
    | none => .error "Invalid RPC port number"
    | some p =>
      if p < 1 ∨ p > 65535 then .error "Invalid RPC port number"
      else .ok ()

/-- Loop body of `validateConfig`: validate each daemon, then reject a
nickname already seen, then record the nickname (the `Set` becomes a list). -/
def validateDaemons : List DaemonConfig → List String → Except String Unit
  | [], _ => .ok ()
  | d :: rest, seen =>
    match validateDaemonConfig d with
    | .error e => .error e
    | .ok () =>
      if seen.contains d.nickname then
        .error ("Duplicate daemon nickname found: " ++ d.nickname)
      else
        validateDaemons rest (d.nickname :: seen)

/-- `validateConfig` from `src/config.ts` (the `daemons`-is-an-array check is
a JS type check with no counterpart here; a configuration is already a list). -/
def validateConfig (daemons : List DaemonConfig) : Except String Unit :=
  if daemons.isEmpty then
    .error "At least one daemon configuration is required"
  else
    validateDaemons daemons []

/-! ## RPC client (`src/rpcClient.ts`) -/

/-- Constants at the top of `src/rpcClient.ts`. -/
def DEFAULT_TIMEOUT : Nat := 30000

/-- `const MAX_RETRIES = 3`. -/
def MAX_RETRIES : Nat := 3

/-- `const RETRY_DELAY = 1000` (milliseconds, the linear-backoff base). -/
def RETRY_DELAY : Nat := 1000

/-- The two values of the client's `_connectionState` field. -/
inductive ConnState where
  | connected
  | disconnected
  deriving DecidableEq, Repr

/-- The immutable fields the `RpcClient` constructor derives from its
`DaemonConfig` (the base64 `_auth` string carries no control flow and is
omitted).  `_connectionState`, the one mutable field, is threaded
explicitly through the operations below. -/
structure RpcClientData where
  endpoint : String
  nickname : String
  coinName : String
  timeout : Nat
  deriving DecidableEq, Repr

/-- The `RpcClient` constructor: `_endpoint` is `http://` + the configured
endpoint, and `_connectionState` starts as `disconnected` (returned
separately as `initialConnState`). -/
def mkRpcClient (config : DaemonConfig) (timeout : Nat := DEFAULT_TIMEOUT) :
    RpcClientData :=
  { endpoint := "http://" ++ config.rpcEndpoint
    nickname := config.nickname
    coinName := config.coinName
    timeout := timeout }

/-- `_connectionState` right after construction. -/
def initialConnState : ConnState := .disconnected

/-- A positional JSON-RPC parameter value (string, number or boolean — the
shapes the repository actually passes). -/
inductive JVal where
  | s (v : String)
  | n (v : Rat)
  | b (v : Bool)
  deriving DecidableEq, Repr

/-- A thrown JavaScript error as the retry loop discriminates it:
either an instance of `CryptoDaemonError` or any other `Error`
(only its `message` is ever read). -/
inductive JsError where
  | cde (e : CDError)
  | generic (message : String)
  deriving DecidableEq, Repr

/-- A JSON-RPC response body; `result` is `null` (`none`) or the payload
(`responseData.error` is handled before this value is built). -/
structure RpcResp (T : Type) where
  result : Option T
  deriving DecidableEq, Repr

/-- What the transport does on one physical attempt of `makeRequest`'s
fetch closure, before the closure's own error handling runs. -/
inductive AttemptOutcome (T : Type) where
  | httpOk (resp : RpcResp T)
  | httpStatus (status : Nat)
  | rpcError (code : Int) (message : String)
  | timeout
  | netFail (message : String)
  deriving DecidableEq, Repr

/-- The fetch closure inside `makeRequest`, as a function of the transport
outcome: non-`ok` HTTP status throws `RpcConnectionError(endpoint,
'HTTP Error: {status}')`; a JSON-RPC error body throws
`mapRpcErrorToCustomError(code, message)`; an `AbortError` becomes
`RpcConnectionError(endpoint, 'Timeout after {timeout}ms')`; any other fetch
rejection is re-thrown as the plain `Error` it was. -/
def attemptResult (client : RpcClientData) :
    AttemptOutcome T → Except JsError (RpcResp T)
  | .httpOk resp => .ok resp
  | .httpStatus status =>
    .error (.cde (.connection client.endpoint ("HTTP Error: " ++ toString status)))
  | .rpcError code message =>
    .error (.cde (mapRpcErrorToCustomError code message))
  | .timeout =>
    .error (.cde (.connection client.endpoint
      ("Timeout after " ++ toString client.timeout ++ "ms")))
  | .netFail message => .error (.generic message)

/-- `error instanceof RpcConnectionError || error instanceof DaemonSyncError`. -/
def isRetryable : JsError → Bool
  | .cde (.connection _ _) => true
  | .cde (.daemonSync _ _) => true
  | _ => false

/-- The terminal conversion in `retryableRequest`: a `CryptoDaemonError` is
re-thrown as is, anything else is wrapped in
`RpcConnectionError(endpoint, error.message)`. -/
def terminalError (client : RpcClientData) : JsError → JsError
  | .cde e => .cde e
  | .generic message => .cde (.connection client.endpoint message)

/-- What one run of `retryableRequest` produced: the value or final thrown
error, the number of physical attempts of the operation, and the backoff
delays in order (`delays[i]` elapses after attempt `i+1` fails and before
attempt `i+2` starts). -/
structure RetryResult (T : Type) where
  result : Except JsError (RpcResp T)
  attempts : Nat
  delays : List Nat
  deriving Repr

/-- The `for (let attempt = 1; attempt <= retries; attempt++)` loop of
`retryableRequest`.  `fuel` is the number of loop iterations still allowed
(`retries + 1 - attempt`); `attempt` is the source's loop counter, so
`isLastAttempt` is literally `attempt = retries`.  `fuel = 0` is the fallthrough
`throw new RpcConnectionError(endpoint, 'Max retries exceeded')` after the
loop, reachable only when the loop never ran. -/
def retryLoop (client : RpcClientData) (op : Nat → Except JsError (RpcResp T))
    (retries : Nat) : Nat → Nat → RetryResult T
  | 0, _ =>
    { result := .error (.cde (.connection client.endpoint "Max retries exceeded"))
      attempts := 0
      delays := [] }
  | fuel + 1, attempt =>
    match op attempt with
    | .ok v => { result := .ok v, attempts := 1, delays := [] }
    | .error e =>
      let retryable := isRetryable e
      let lastAttempt := attempt = retries
      if ¬ (retryable = true) ∨ lastAttempt then
        { result := .error (terminalError client e), attempts := 1, delays := [] }
      else
        let rest := retryLoop client op retries fuel (attempt + 1)
        { result := rest.result
          attempts := rest.attempts + 1
          delays := RETRY_DELAY * attempt :: rest.delays }

/-- `retryableRequest(operation, retries = MAX_RETRIES)`: run the loop from
`attempt = 1` with `retries` iterations available. -/
def retryableRequest (client : RpcClientData)
    (op : Nat → Except JsError (RpcResp T)) (retries : Nat := MAX_RETRIES) :
    RetryResult T :=
  retryLoop client op retries retries 1

/-- One `logger.logRpcCall(nickname, method, params, duration, success,
error)` invocation, minus the wall-clock `duration` argument. -/
structure LogRpcEntry where
  daemon : String
  method : String
  params : List JVal
  success : Bool
  error : Option JsError
  deriving DecidableEq, Repr

/-- The payload of `Except.error`, if any. -/
def errorOf : Except JsError α → Option JsError
  | .ok _ => none
  | .error e => some e

/-- Everything observable about one `makeRequest` invocation: its outcome,
the physical attempts (each attempt is one HTTP POST carrying `method`, so
the issued methods are `attempts` copies of `method`), the backoff delays,
the `logRpcCall` reports it makes, and the connection state when it
returns. -/
structure MakeRequestResult (T : Type) where
  result : Except JsError (RpcResp T)
  attempts : Nat
  issuedMethods : List String
  delays : List Nat
  logCalls : List LogRpcEntry
  finalState : ConnState
  deriving Repr

/-- `makeRequest(method, params = [])` from `src/rpcClient.ts`: it runs
`retryableRequest` over the fetch closure and, in its `finally` block, calls
`logger.logRpcCall` exactly once with the nickname, method, caller params,
elapsed time, the success flag and the error caught, then returns the
response or re-throws.  It reads or writes `_connectionState` nowhere, so the
state passes through unchanged. -/
def makeRequest (client : RpcClientData) (state : ConnState) (method : String)
    (params : List JVal) (transport : Nat → AttemptOutcome T) :
    MakeRequestResult T :=
  let r := retryableRequest client (fun attempt => attemptResult client (transport attempt))
  { result := r.result
    attempts := r.attempts
    issuedMethods := List.replicate r.attempts method
    delays := r.delays
    logCalls := [{ daemon := client.nickname
                   method := method
                   params := params
                   success := r.result.isOk
                   error := errorOf r.result }]
    finalState := state }

/-! ## Connection probe (`validateConnection`) -/

/-- The fields of the `getinfo` payload that `validateConnection` reads.
`none` models an absent (`undefined`) field. -/
structure GetInfo where
  blocks : Option Int
  connections : Option Int
  headers : Option Int
  deriving DecidableEq, Repr

/-- JavaScript truthiness of an optional number: `undefined` and `0` are
falsy, every other integer is truthy. -/
def jsTruthy : Option Int → Bool
  | none => false
  | some v => v ≠ 0

/-- What one `validateConnection` call produced: the connection state at
return, the outcome, and the inner `makeRequest('getinfo')` run. -/
structure ProbeResult where
  state : ConnState
  result : Except JsError Unit
  inner : MakeRequestResult GetInfo
  deriving Repr

/-- `validateConnection()` from `src/rpcClient.ts`:
`makeRequest('getinfo')`, then `info = response.result || {}`, then
`_connectionState = 'connected'`; if `!info.blocks || !info.connections` it
throws `DaemonSyncError(info.blocks || 0, info.headers || 0)`.  The `catch`
sets `_connectionState = 'disconnected'` and re-throws the error as is when it
is a `CryptoDaemonError`, else wrapped in `RpcConnectionError(endpoint,
message)` — the same conversion as `terminalError`.  The transient
`connected` write before the sync check is overwritten on that path before
the call returns, so only the state at return is modelled.  `probeOutcome`
is that body as a function of the inner `makeRequest` run. -/
def probeOutcome (client : RpcClientData) (mr : MakeRequestResult GetInfo) :
    ProbeResult :=
  match mr.result with
  | .ok resp =>
    let info := resp.result.getD { blocks := none, connections := none, headers := none }
    if jsTruthy info.blocks = false ∨ jsTruthy info.connections = false then
      { state := .disconnected
        result := .error (.cde (.daemonSync (info.blocks.getD 0) (info.headers.getD 0)))
        inner := mr }
    else
      { state := .connected, result := .ok (), inner := mr }
  | .error e =>
    { state := .disconnected
      result := .error (terminalError client e)
      inner := mr }

/-- `validateConnection` is `probeOutcome` applied to the inner
`makeRequest('getinfo')` run. -/
def validateConnection (client : RpcClientData) (state : ConnState)
    (transport : Nat → AttemptOutcome GetInfo) : ProbeResult :=
  probeOutcome client (makeRequest client state "getinfo" [] transport)

/-! ## Wallet operations (`getBalance`, `sendCoins`)

These compose `makeRequest` calls.  Each inner call is abstracted by its
outcome: the value is the call's `response.result` with the numeric fields
already parsed (`parseFloat` of the wire strings is not modelled), the error
is whatever `makeRequest` threw. -/

/-- ASCII lower-casing of one character (the alphabet coin names use). -/
def asciiToLower (c : Char) : Char :=
  if 65 ≤ c.toNat ∧ c.toNat ≤ 90 then Char.ofNat (c.toNat + 32) else c

/-- JavaScript `toLowerCase()` on the ASCII strings configured as coin
names. -/
def jsToLower (s : String) : String :=
  ⟨s.data.map asciiToLower⟩

/-- The branch condition of `getBalance`:
`coinName.toLowerCase() === 'zcash' || coinName.toLowerCase().includes('zec')`. -/
def isZcashCoin (coinName : String) : Bool :=
  jsToLower coinName == "zcash" || jsIncludes (jsToLower coinName) "zec"

/-- The `z_gettotalbalance` payload fields `getBalance` reads, as parsed
numbers (`transparent` and `private`; `private` is a Lean keyword, hence
`priv`). -/
structure ZTotalBalance where
  transparent : Rat
  priv : Rat
  deriving DecidableEq, Repr

/-- The `WalletBalance` result shape of `getBalance`. -/
structure WalletBalance where
  transparent : Rat
  shielded : Rat
  deriving DecidableEq, Repr

/-- Outcome of a wallet operation together with the RPC methods it actually
issued, in order. -/
structure BalanceResult where
  result : Except JsError WalletBalance
  methodsCalled : List String
  deriving Repr

/-- `getBalance()` from `src/rpcClient.ts`: for a Zcash-style coin it issues
one `z_gettotalbalance` call and reads `transparent`/`private` from it; for
every other coin it issues one `getbalance` call and leaves
`shieldedBalance = 0`.  Its `catch` logs and re-throws, so any sub-call
failure propagates.  `zOutcome` and `tOutcome` are the outcomes the two
possible inner calls would have; only the branch taken issues its call. -/
def getBalance (coinName : String) (zOutcome : Except JsError ZTotalBalance)
    (tOutcome : Except JsError Rat) : BalanceResult :=
  if isZcashCoin coinName then
    match zOutcome with
    | .ok z =>
      { result := .ok { transparent := z.transparent, shielded := z.priv }
        methodsCalled := ["z_gettotalbalance"] }
    | .error e => { result := .error e, methodsCalled := ["z_gettotalbalance"] }
  else
    match tOutcome with
    | .ok t =>
      { result := .ok { transparent := t, shielded := 0 }
        methodsCalled := ["getbalance"] }
    | .error e => { result := .error e, methodsCalled := ["getbalance"] }

/-- `SendCoinsParams` from `src/types.ts`. -/
structure SendCoinsParams where
  address : String
  amount : Rat
  comment : Option String := none
  subtractFee : Option Bool := none
  deriving DecidableEq, Repr

/-- Outcome of `sendCoins` together with the RPC methods issued, in order. -/
structure SendResult where
  result : Except JsError String
  methodsCalled : List String
  deriving Repr

/-- `sendCoins(params)` from `src/rpcClient.ts`: it first runs
`getBalance()` ("check balance first to fail fast"); if
`balance.transparent < params.amount` it throws
`InsufficientFundsError(params.amount, balance.transparent)`; otherwise it
issues `sendtoaddress` with `[address, amount, comment || '', '',
subtractFee || false]` and returns the txid.  Its `catch` logs and
re-throws. -/
def sendCoins (coinName : String) (p : SendCoinsParams)
    (zOutcome : Except JsError ZTotalBalance) (tOutcome : Except JsError Rat)
    (sendOutcome : Except JsError String) : SendResult :=
  let bal := getBalance coinName zOutcome tOutcome
  match bal.result with
  | .error e => { result := .error e, methodsCalled := bal.methodsCalled }
  | .ok balance =>
    if balance.transparent < p.amount then
      { result := .error (.cde (.insufficientFunds p.amount balance.transparent))
        methodsCalled := bal.methodsCalled }
    else
      match sendOutcome with
      | .ok txid =>
        { result := .ok txid, methodsCalled := bal.methodsCalled ++ ["sendtoaddress"] }
      | .error e =>
        { result := .error e, methodsCalled := bal.methodsCalled ++ ["sendtoaddress"] }

/-! ## Registry construction (`src/mcpServer.ts`) -/

/-- The `CryptoDaemonMCP` constructor: `validateConfig(config)` first, then
`initializeClients` populates the nickname→client map in configuration
order.  A validation failure throws before any client is built, so on the
error path no client is ever registered. -/
def constructMCP (daemons : List DaemonConfig) (rpcTimeout : Nat := 30000) :
    Except String (List (String × RpcClientData)) :=
  match validateConfig daemons with
  | .error e => .error e
  | .ok () => .ok (daemons.map (fun d => (d.nickname, mkRpcClient d rpcTimeout)))

/-- The clients observable after attempted construction: none when the
constructor threw. -/
def registeredClients (r : Except String (List (String × RpcClientData))) :
    List (String × RpcClientData) :=
  match r with
  | .error _ => []
  | .ok m => m

/-! ## Concrete fixtures used by counterexamples and witnesses -/

/-- The example daemon configuration used throughout the repository's own
tests. -/
def exCfg : DaemonConfig :=
  { coinName := "zcash", nickname := "zec-main", rpcEndpoint := "127.0.0.1:8232"
    rpcUser := "user", rpcPassword := "pass" }

/-- The client built from `exCfg` with the default timeout. -/
def exClient : RpcClientData := mkRpcClient exCfg

/-- A transport whose every attempt succeeds with result `42`. -/
def alwaysOkTransport : Nat → AttemptOutcome Int :=
  fun _ => .httpOk { result := some 42 }

/-- A transport whose every attempt aborts on the timeout. -/
def alwaysTimeoutTransport : Nat → AttemptOutcome Int :=
  fun _ => .timeout

/-- A transport whose `getinfo` succeeds over HTTP with
`{blocks: 100, connections: 0}` (no `headers` field). -/
def syncProbeTransport : Nat → AttemptOutcome GetInfo :=
  fun _ => .httpOk { result := some { blocks := some 100, connections := some 0, headers := none } }

/-- Two descriptors sharing the nickname `main`. -/
def dupCfg1 : DaemonConfig :=
  { coinName := "zcash", nickname := "main", rpcEndpoint := "127.0.0.1:8232"
    rpcUser := "user", rpcPassword := "password" }

/-- Second descriptor with the colliding nickname `main`. -/
def dupCfg2 : DaemonConfig :=
  { coinName := "bitcoin", nickname := "main", rpcEndpoint := "127.0.0.1:8332"
    rpcUser := "user", rpcPassword := "password" }

/-! ## Claims -/

/-- **C4, counterexample.** The descriptor with address `:8232` — an empty
host part — passes `validateDaemonConfig`: the validator splits the address
and range-checks the port but never inspects the host part, so the claim
that such a descriptor is rejected is false. -/
theorem c4_counterexample :
    (validateDaemonConfig
      { coinName := "zcash", nickname := "z", rpcEndpoint := ":8232"
        rpcUser := "u", rpcPassword := "p" }).isOk = true := by
  decide

/-- **C4, amended.** `validateDaemonConfig` succeeds exactly when the five
configured fields are nonempty, the address splits at `:` into exactly two
parts, and the second part parses (JS `parseInt`) to a port in `[1, 65535]`;
emptiness of the host part is never required. -/
theorem c4_validation_characterization (c : DaemonConfig) :
    (validateDaemonConfig c).isOk = true ↔
      (c.coinName ≠ "" ∧ c.nickname ≠ "" ∧ c.rpcEndpoint ≠ "" ∧
       c.rpcUser ≠ "" ∧ c.rpcPassword ≠ "" ∧
       (jsSplitColon c.rpcEndpoint).length = 2 ∧
       ∃ p : Int, parseIntJs ((jsSplitColon c.rpcEndpoint).getD 1 "") = some p ∧
         1 ≤ p ∧ p ≤ 65535) := by
  unfold validateDaemonConfig
  split_ifs with h1 h2 h3 h4 h5 h6
  · simp [Except.isOk, Except.toBool, h1]
  · simp [Except.isOk, Except.toBool, h2]
  · simp [Except.isOk, Except.toBool, h3]
  · simp [Except.isOk, Except.toBool, h4]
  · simp [Except.isOk, Except.toBool, h5]
  · simp [Except.isOk, Except.toBool, h6]
  · rcases hp : parseIntJs ((jsSplitColon c.rpcEndpoint).getD 1 "") with _ | p
    · simp [hp, Except.isOk, Except.toBool, h1, h2, h3, h4, h5, h6]
    · dsimp only
      split_ifs with hrange
      · refine iff_of_false (by simp [Except.isOk, Except.toBool]) ?_
        rintro ⟨_, _, _, _, _, _, q, hq, hq1, hq2⟩
        cases hq
        omega
      · exact iff_of_true rfl
          ⟨h1, h2, h3, h4, h5, not_not.mp h6, p, rfl, by omega, by omega⟩

/-- **C6, counterexample.** The code→kind mapping is not independent of the
message: for raw code `-1`, a message containing `sync` classifies as a sync
error while any other message classifies as unclassified. -/
theorem c6_counterexample :
    (mapRpcErrorToCustomError (-1) "sync lost").kind = ErrorKind.sync ∧
    (mapRpcErrorToCustomError (-1) "boom").kind = ErrorKind.unclassified ∧
    ErrorKind.sync ≠ ErrorKind.unclassified := by
  refine ⟨by decide, by decide, by decide⟩

/-- **C6, amended.** `mapRpcErrorToCustomError` is a total function of code,
message and optional data; codes `-6`, `-5`, `-4`, `-3` map to fixed kinds
independent of the message; every code outside `{-6, -5, -4, -3, -1}`
defaults to `Unclassified` with the message preserved verbatim; but at code
`-1` the kind does depend on the message: sync error when the message
contains `sync`, unclassified otherwise. -/
theorem c6_classify_characterization (code : Int) (msg : String)
    (data : RpcErrorData) :
    (code = -6 → (mapRpcErrorToCustomError code msg data).kind = .insufficientFunds) ∧
    (code = -5 → (mapRpcErrorToCustomError code msg data).kind = .invalidAddress) ∧
    (code = -4 → (mapRpcErrorToCustomError code msg data).kind = .walletLocked) ∧
    (code = -3 → (mapRpcErrorToCustomError code msg data).kind = .feeEstimation) ∧
    (code = -1 → (mapRpcErrorToCustomError code msg data).kind =
      (if jsIncludes msg "sync" then ErrorKind.sync else ErrorKind.unclassified)) ∧
    (code ≠ -6 → code ≠ -5 → code ≠ -4 → code ≠ -3 → code ≠ -1 →
      mapRpcErrorToCustomError code msg data = .unclassified msg) := by
  refine ⟨?_, ?_, ?_, ?_, ?_, ?_⟩ <;> intro h
  · simp [mapRpcErrorToCustomError, h, CDError.kind]
  · simp [mapRpcErrorToCustomError, h, CDError.kind]
  · simp [mapRpcErrorToCustomError, h, CDError.kind]
  · simp [mapRpcErrorToCustomError, h, CDError.kind]
  · rcases hs : jsIncludes msg "sync" <;>
      simp [mapRpcErrorToCustomError, h, hs, CDError.kind]
  · intro h5 h4 h3 h1
    simp [mapRpcErrorToCustomError, h, h5, h4, h3, h1]

/-- **C6, witness.** The characterization instantiated at codes `-6` and
`12345`. -/
theorem c6_witness :
    (mapRpcErrorToCustomError (-6) "x" {}).kind = .insufficientFunds ∧
    mapRpcErrorToCustomError 12345 "hello" {} = .unclassified "hello" :=
  ⟨(c6_classify_characterization (-6) "x" {}).1 (by decide),
   (c6_classify_characterization 12345 "hello" {}).2.2.2.2.2
     (by decide) (by decide) (by decide) (by decide) (by decide)⟩

/-- Helper for C8: a successful `validateDaemons` run implies the nicknames
it traversed are mutually distinct and disjoint from the accumulator. -/
theorem validateDaemons_ok_nodup :
    ∀ (ds : List DaemonConfig) (seen : List String),
      validateDaemons ds seen = .ok () →
      (ds.map (fun d => d.nickname)).Nodup ∧
      ∀ n ∈ ds.map (fun d => d.nickname), seen.contains n = false
  | [], _, _ => ⟨List.nodup_nil, by simp⟩
  | d :: rest, seen, h => by
    unfold validateDaemons at h
    rcases hv : validateDaemonConfig d with e | u
    · rw [hv] at h; exact absurd h (by simp)
    · rw [hv] at h
      rcases hc : seen.contains d.nickname with _ | _
      · rw [hc] at h
        simp only [Bool.false_eq_true, if_false] at h
        obtain ⟨hnodup, hdisj⟩ := validateDaemons_ok_nodup rest (d.nickname :: seen) h
        refine ⟨?_, ?_⟩
        · simp only [List.map_cons, List.nodup_cons]
          refine ⟨fun hmem => ?_, hnodup⟩
          have := hdisj _ hmem
          simp [List.contains_cons] at this
        · intro n hn
          simp only [List.map_cons, List.mem_cons] at hn
          rcases hn with rfl | hn
          · exact hc
          · have := hdisj _ hn
            simp only [List.contains_cons, Bool.or_eq_false_iff] at this
            exact this.2
      · rw [hc] at h; exact absurd h (by simp)

/-- **C8.** A configuration whose nicknames are not pairwise distinct makes
registry construction fail, and no client at all is registered afterwards:
`validateConfig` throws before `initializeClients` runs, so registration is
atomic. -/
theorem c8_duplicate_nickname_rejected (ds : List DaemonConfig) (timeout : Nat)
    (hdup : ¬ (ds.map (fun d => d.nickname)).Nodup) :
    (∃ msg, constructMCP ds timeout = .error msg) ∧
    registeredClients (constructMCP ds timeout) = [] := by
  have hvc : ∀ u, validateConfig ds ≠ .ok u := by
    intro u hok
    cases u
    have : validateDaemons ds [] = .ok () := by
      unfold validateConfig at hok
      rcases he : ds.isEmpty with _ | _
      · rwa [he, if_neg (by simp)] at hok
      · rw [he] at hok; exact absurd hok (by simp)
    exact hdup (validateDaemons_ok_nodup ds [] this).1
  rcases hv : validateConfig ds with msg | u
  · refine ⟨⟨msg, ?_⟩, ?_⟩ <;> simp [constructMCP, hv, registeredClients]
  · exact absurd hv (hvc u)

/-- **C8, witness.** Two descriptors nicknamed `main`: construction errors
and the client map stays empty. -/
theorem c8_witness :
    registeredClients (constructMCP [dupCfg1, dupCfg2] 30000) = [] :=
  (c8_duplicate_nickname_rejected [dupCfg1, dupCfg2] 30000 (by decide)).2

/-- **C1, counterexample.** A client whose connection state is
`disconnected` and whose requested method `getbalance` is not the probe
method issues the business request directly and succeeds: no `getinfo`
probe is ever issued, contradicting the claim that `makeRequest` runs
`validateConnection` first in that situation. -/
theorem c1_counterexample :
    (makeRequest exClient .disconnected "getbalance" [] alwaysOkTransport).issuedMethods
      = ["getbalance"] ∧
    "getinfo" ∉
      (makeRequest exClient .disconnected "getbalance" [] alwaysOkTransport).issuedMethods ∧
    (makeRequest exClient .disconnected "getbalance" [] alwaysOkTransport).result.isOk
      = true := by
  refine ⟨rfl, by decide, rfl⟩

/-- **C1, amended.** `makeRequest` never probes and never touches the
connection state: whatever the current state, the only RPC method it issues
is the requested one (one issuance per physical attempt), and the state at
return equals the state at entry; in particular for a non-probe method no
`getinfo` request occurs inside `makeRequest`. -/
theorem c1_no_probe_in_makeRequest {T : Type} (client : RpcClientData)
    (st : ConnState) (method : String) (params : List JVal)
    (transport : Nat → AttemptOutcome T) (hm : method ≠ "getinfo") :
    (makeRequest client st method params transport).finalState = st ∧
    (makeRequest client st method params transport).issuedMethods =
      List.replicate (makeRequest client st method params transport).attempts method ∧
    "getinfo" ∉ (makeRequest client st method params transport).issuedMethods := by
  refine ⟨rfl, rfl, fun hmem => hm ?_⟩
  exact (List.eq_of_mem_replicate hmem).symm

/-- **C1, witness.** The amended statement at a disconnected client asking
for `getbalance`. -/
theorem c1_witness :
    "getinfo" ∉
      (makeRequest exClient .disconnected "getbalance" [] alwaysOkTransport).issuedMethods :=
  (c1_no_probe_in_makeRequest exClient .disconnected "getbalance" []
    alwaysOkTransport (by decide)).2.2

/-- **C3, counterexample.** A logical call whose transport times out on all
three physical attempts produces exactly one `logRpcCall` report, not three:
the report happens in `makeRequest`'s `finally`, outside the retry loop. -/
theorem c3_counterexample :
    (makeRequest exClient .connected "getbalance" [] alwaysTimeoutTransport).attempts = 3 ∧
    (makeRequest exClient .connected "getbalance" [] alwaysTimeoutTransport).logCalls.length
      = 1 ∧
    (makeRequest exClient .connected "getbalance" [] alwaysTimeoutTransport).logCalls.length
      ≠ 3 := by
  refine ⟨rfl, rfl, by decide⟩

/-- **C3, amended.** Every `makeRequest` invocation reports to
`logger.logRpcCall` exactly once — once per logical call, not once per
physical attempt — and the single report carries the daemon nickname, the
method, the caller-supplied parameter list, the success flag and the error
if any (the elapsed wall-clock time is also passed in the source but is not
modelled). -/
theorem c3_one_log_per_logical_call {T : Type} (client : RpcClientData)
    (st : ConnState) (method : String) (params : List JVal)
    (transport : Nat → AttemptOutcome T) :
    (makeRequest client st method params transport).logCalls =
      [{ daemon := client.nickname
         method := method
         params := params
         success := (makeRequest client st method params transport).result.isOk
         error := errorOf (makeRequest client st method params transport).result }] :=
  rfl

/-- Helper: a retryable error is an `RpcConnectionError` or
`DaemonSyncError`, both `CryptoDaemonError`s, so the terminal conversion of
`retryableRequest` returns it unchanged. -/
theorem terminalError_of_retryable (client : RpcClientData) (e : JsError)
    (h : isRetryable e = true) : terminalError client e = e := by
  cases e with
  | cde _ => rfl
  | generic _ => simp [isRetryable] at h

/-- **C5.** With the default `MAX_RETRIES = 3`, a transport failing with a
retryable error on each of the three attempts makes exactly 3 physical
attempts, sleeps `1 × RETRY_DELAY` before the 2nd and `2 × RETRY_DELAY`
before the 3rd (and nowhere else), and surfaces the error observed on the
3rd attempt. -/
theorem c5_retry_exhaustion {T : Type} (client : RpcClientData)
    (transport : Nat → AttemptOutcome T) (e1 e2 e3 : JsError)
    (h1 : attemptResult client (transport 1) = .error e1) (r1 : isRetryable e1 = true)
    (h2 : attemptResult client (transport 2) = .error e2) (r2 : isRetryable e2 = true)
    (h3 : attemptResult client (transport 3) = .error e3) (r3 : isRetryable e3 = true) :
    retryableRequest client (fun attempt => attemptResult client (transport attempt))
        MAX_RETRIES =
      { result := .error e3, attempts := 3, delays := [RETRY_DELAY * 1, RETRY_DELAY * 2] } := by
  have hterm := terminalError_of_retryable client e3 r3
  simp [retryableRequest, retryLoop, MAX_RETRIES, h1, h2, h3, r1, r2, r3, hterm]

/-- **C5, witness.** The retry bound at a transport that times out on every
attempt. -/
theorem c5_witness :
    retryableRequest exClient
        (fun attempt => attemptResult exClient (alwaysTimeoutTransport attempt))
        MAX_RETRIES =
      { result := .error (.cde (.connection "http://127.0.0.1:8232" "Timeout after 30000ms"))
        attempts := 3
        delays := [RETRY_DELAY * 1, RETRY_DELAY * 2] } :=
  c5_retry_exhaustion exClient alwaysTimeoutTransport _ _ _
    rfl rfl rfl rfl rfl rfl

/-- **C7.** The probe classifies a daemon that answers `getinfo` over HTTP
with `blocks = 100, connections = 0` as a sync failure
`DaemonSyncError(100, 0)` (the remote height falls back to `0` because the
reply has no `headers` field) and leaves the state `disconnected`; and in
general the state at return is `connected` exactly when the probe fully
succeeded. -/
theorem c7_probe_sync_detection :
    (∀ (client : RpcClientData) (st : ConnState) (tr : Nat → AttemptOutcome GetInfo),
      (validateConnection client st tr).state = .connected ↔
        (validateConnection client st tr).result.isOk = true) ∧
    ((validateConnection exClient .disconnected syncProbeTransport).result =
        .error (.cde (.daemonSync 100 0)) ∧
      (validateConnection exClient .disconnected syncProbeTransport).state =
        .disconnected) := by
  refine ⟨fun client st tr => ?_, rfl, rfl⟩
  show (probeOutcome client (makeRequest client st "getinfo" [] tr)).state =
      ConnState.connected ↔
    (probeOutcome client (makeRequest client st "getinfo" [] tr)).result.isOk = true
  generalize makeRequest client st "getinfo" [] tr = mr
  unfold probeOutcome
  rcases h : mr.result with e | v <;> dsimp only
  · simp [Except.isOk, Except.toBool]
  · split_ifs with hs <;> simp [Except.isOk, Except.toBool]

/-- **C2, counterexample.** For a daemon whose coin is named `zcash` and
whose `z_gettotalbalance` method is unsupported, `getBalance()` raises the
sub-call's error instead of coercing it to a zero shielded balance: sub-call
failures for unsupported methods are propagated, not swallowed. -/
theorem c2_counterexample :
    (getBalance "zcash" (.error (.cde (.unclassified "Method not found")))
        (.ok (3/2))).result =
      .error (.cde (.unclassified "Method not found")) :=
  rfl

/-- **C2, amended.** For a coin that is not Zcash-named, `getBalance`
returns the transparent balance with `shielded = 0` without raising — but
because the shielded-balance method is never invoked on that path, not
because a failure is coerced to zero; every failure of a sub-call that
`getBalance` actually issues (on either path) is propagated to the
caller. -/
theorem c2_balance_error_policy (coin : String)
    (z : Except JsError ZTotalBalance) (t : Rat) (e : JsError) :
    (isZcashCoin coin = false →
      (getBalance coin z (.ok t)).result = .ok { transparent := t, shielded := 0 } ∧
      (getBalance coin z (.ok t)).methodsCalled = ["getbalance"] ∧
      (getBalance coin z (.error e)).result = .error e) ∧
    (isZcashCoin coin = true →
      (getBalance coin (.error e) (.ok t)).result = .error e) := by
  constructor
  · intro h
    refine ⟨?_, ?_, ?_⟩ <;> simp [getBalance, h]
  · intro h
    simp [getBalance, h]

/-- **C2, witness.** The amended statement at a Bitcoin daemon reporting
transparent balance `1.5` (shielded never queried, result `{1.5, 0}`) and at
a Zcash daemon whose single balance call fails (error propagated). -/
theorem c2_witness :
    (getBalance "bitcoin" (.error (.cde (.unclassified "nope"))) (.ok (3/2))).result =
      .ok { transparent := 3/2, shielded := 0 } ∧
    (getBalance "zcash" (.error (.cde (.unclassified "nope"))) (.ok (3/2))).result =
      .error (.cde (.unclassified "nope")) :=
  ⟨((c2_balance_error_policy "bitcoin" (.error (.cde (.unclassified "nope"))) (3/2)
      (.cde (.unclassified "nope"))).1 (by decide)).1,
   (c2_balance_error_policy "zcash" (.error (.cde (.unclassified "nope"))) (3/2)
      (.cde (.unclassified "nope"))).2 (by decide)⟩

/-- Helper: which RPC method `getBalance` issues depends only on the coin
name. -/
theorem getBalance_methodsCalled (coin : String)
    (z : Except JsError ZTotalBalance) (t : Except JsError Rat) :
    (getBalance coin z t).methodsCalled =
      if isZcashCoin coin then ["z_gettotalbalance"] else ["getbalance"] := by
  unfold getBalance
  split_ifs with h <;> cases z <;> cases t <;> rfl

/-- **C9.** When the wallet balance fetch succeeds and its transparent
component is strictly below the requested amount, `sendCoins` fails with
`InsufficientFundsError(amount, transparent)` and never issues
`sendtoaddress`; the shielded component plays no role in the check, so a
request covered only by shielded funds is rejected locally. -/
theorem c9_insufficient_funds_short_circuit (coin : String) (p : SendCoinsParams)
    (z : Except JsError ZTotalBalance) (t : Except JsError Rat)
    (send : Except JsError String) (b : WalletBalance)
    (hb : (getBalance coin z t).result = .ok b)
    (hlt : b.transparent < p.amount) :
    (sendCoins coin p z t send).result =
      .error (.cde (.insufficientFunds p.amount b.transparent)) ∧
    "sendtoaddress" ∉ (sendCoins coin p z t send).methodsCalled := by
  unfold sendCoins
  dsimp only
  rw [hb]
  dsimp only
  rw [if_pos hlt]
  refine ⟨rfl, ?_⟩
  rw [getBalance_methodsCalled]
  split_ifs
  · show "sendtoaddress" ∉ ["z_gettotalbalance"]
    decide
  · show "sendtoaddress" ∉ ["getbalance"]
    decide

/-- **C9, witness.** A Zcash wallet holding transparent `1` and shielded
`100`: a send of `5` is rejected locally with `InsufficientFunds(5, 1)` and
`sendtoaddress` is never issued, although the shielded funds would cover
it. -/
theorem c9_witness :
    (sendCoins "zcash" { address := "t1abc", amount := 5 }
        (.ok { transparent := 1, priv := 100 }) (.ok 0) (.ok "txid")).result =
      .error (.cde (.insufficientFunds 5 1)) ∧
    "sendtoaddress" ∉
      (sendCoins "zcash" { address := "t1abc", amount := 5 }
        (.ok { transparent := 1, priv := 100 }) (.ok 0) (.ok "txid")).methodsCalled :=
  c9_insufficient_funds_short_circuit "zcash" { address := "t1abc", amount := 5 }
    (.ok { transparent := 1, priv := 100 }) (.ok 0) (.ok "txid")
    { transparent := 1, shielded := 100 } rfl (by norm_num)

/-- **C10.** `getBalance` selects its RPC method from the coin name alone:
exactly when the lowercased name equals `zcash` or contains `zec` it issues
`z_gettotalbalance` and returns its `transparent`/`private` fields; for any
other coin it issues `getbalance` and returns `shielded = 0`, never invoking
a shielded-balance method.  (The source parses the Zcash fields with
`parseFloat`; payloads here carry the parsed numbers.) -/
theorem c10_balance_method_selection (coin : String) (z : ZTotalBalance)
    (zo : Except JsError ZTotalBalance) (tv : Rat) (t : Except JsError Rat) :
    (isZcashCoin coin = true ↔
      (jsToLower coin = "zcash" ∨ List.IsInfix "zec".data (jsToLower coin).data)) ∧
    (isZcashCoin coin = true →
      (getBalance coin (.ok z) t).methodsCalled = ["z_gettotalbalance"] ∧
      (getBalance coin (.ok z) t).result =
        .ok { transparent := z.transparent, shielded := z.priv }) ∧
    (isZcashCoin coin = false →
      (getBalance coin zo (.ok tv)).methodsCalled = ["getbalance"] ∧
      "z_gettotalbalance" ∉ (getBalance coin zo (.ok tv)).methodsCalled ∧
      (getBalance coin zo (.ok tv)).result = .ok { transparent := tv, shielded := 0 }) := by
  refine ⟨?_, fun h => ?_, fun h => ?_⟩
  · simp [isZcashCoin, jsIncludes, Bool.or_eq_true, beq_iff_eq, decide_eq_true_iff]
  · constructor <;> simp [getBalance, h]
  · refine ⟨?_, ?_, ?_⟩ <;> simp [getBalance, h]

/-- **C10, witness.** The selection at `Zcash` (issues only
`z_gettotalbalance`) and at `bitcoin` (issues only `getbalance`, shielded
`0`). -/
theorem c10_witness :
    (getBalance "Zcash" (.ok { transparent := 1, priv := 2 }) (.ok 5)).methodsCalled =
      ["z_gettotalbalance"] ∧
    (getBalance "bitcoin" (.ok { transparent := 1, priv := 2 }) (.ok 5)).methodsCalled =
      ["getbalance"] ∧
    (getBalance "bitcoin" (.ok { transparent := 1, priv := 2 }) (.ok 5)).result =
      .ok { transparent := 5, shielded := 0 } := by
  refine ⟨((c10_balance_method_selection "Zcash" { transparent := 1, priv := 2 }
      (.ok { transparent := 1, priv := 2 }) 5 (.ok 5)).2.1 (by decide)).1, ?_, ?_⟩
  · exact ((c10_balance_method_selection "bitcoin" { transparent := 1, priv := 2 }
      (.ok { transparent := 1, priv := 2 }) 5 (.ok 5)).2.2 (by decide)).1
  · exact ((c10_balance_method_selection "bitcoin" { transparent := 1, priv := 2 }
      (.ok { transparent := 1, priv := 2 }) 5 (.ok 5)).2.2 (by decide)).2.2

end CoinDaemon
